/-
  Verification of the openplace real-time pixel-canvas service.

  Shallow embedding of:
  - the HTTP placement handler (pages/api/canvas/[id]/place.ts),
  - the client-side placePixel routine (pages/canvas/[id].tsx),
  - the client reconnection hook (hooks/useWebSocket.ts),
  - the Bun WebSocket server's connection registry, broadcast fan-out,
    message handler and heartbeat sweep (server.ts).
-/
import Mathlib

namespace OpenPlace

/-! ## Canvas configuration (lib/websocket.ts `CanvasConfig`) -/

/-- `auth_mode` column: `"anyone" | "user_or_guest" | "user_only"`. -/
inductive AuthMode where
  | anyone
  | userOrGuest
  | userOnly
deriving DecidableEq, Repr

/-- The fields of `CanvasConfig` consulted by the placement pipeline.
`width`/`height` are the integer grid dimensions, `placeCooldown` the
per-canvas cooldown in seconds, `allowedColors` the optional restricted
palette (stored uppercased), `authMode` the access policy column. -/
structure CanvasConfig where
  width : Nat
  height : Nat
  placeCooldown : Nat
  allowedColors : Option (List String)
  authMode : AuthMode
deriving DecidableEq, Repr

/-! ## The HTTP placement handler (pages/api/canvas/[id]/place.ts) -/

/-- One hex digit of the color regex character class `[0-9A-Fa-f]`. -/
def isHexDigit (ch : Char) : Bool :=
  (Char.ofNat 48 ≤ ch && ch ≤ Char.ofNat 57) ||
  (Char.ofNat 97 ≤ ch && ch ≤ Char.ofNat 102) ||
  (Char.ofNat 65 ≤ ch && ch ≤ Char.ofNat 70)

/-- The color-format test `/^#[0-9A-Fa-f]{6}$/i.test(color)`. -/
def isValidColorFormat (s : String) : Bool :=
  match s.toList with
  | c :: rest => c = Char.ofNat 35 && rest.length = 6 && rest.all isHexDigit
  | [] => false

/-- The record handed to `placePixel(id, x, y, color, userId)` on success.
Coordinates are stored exactly as received (JS numbers, embedded as `ℚ`). -/
structure PixelWrite where
  x : ℚ
  y : ℚ
  color : String
  userId : Option String
deriving DecidableEq, Repr

/-- The outcomes of the POST handler body for a string canvas id, one
constructor per `res.status(...)` exit of the modeled validation pipeline
(the 405 method guard, the non-string-id guard and the 500 catch-all
around the store live outside the modeled body; the store write is
treated as succeeding).  `success` is the only outcome that performs the
store write (and triggers the broadcast). -/
inductive HandlerResult where
  | invalidPixelData
  | canvasNotFound
  | invalidCoordinates
  | invalidColorFormat
  | colorNotAllowed
  | success (write : PixelWrite)
deriving DecidableEq, Repr

/-- HTTP status code of each handler outcome. -/
def statusOf : HandlerResult → Nat
  | .invalidPixelData => 400
  | .canvasNotFound => 404
  | .invalidCoordinates => 400
  | .invalidColorFormat => 400
  | .colorNotAllowed => 400
  | .success _ => 200

/-- The store write performed by an outcome (`placePixel` call), if any. -/
def writeOf : HandlerResult → Option PixelWrite
  | .success w => some w
  | _ => none

/-- Whether the outcome enqueues a `pixel_placed` broadcast (only the
success path reaches `wss.broadcast`). -/
def broadcastsOf : HandlerResult → Bool
  | .success _ => true
  | _ => false

/-- The POST handler of pages/api/canvas/[id]/place.ts.  `x?`, `y?`,
`color?` are the body fields (`none` embeds a missing or non-number /
non-string field, rejected by the `typeof` guard); `canvas?` is the
`getCanvas(id)` result; `userId?` the body's `userId` field.  JS numbers
are embedded as rationals: the source checks only `typeof x === 'number'`
and performs no integrality test. -/
def placeHandler (canvas? : Option CanvasConfig) (x? y? : Option ℚ)
    (color? : Option String) (userId? : Option String) : HandlerResult :=
  match x?, y?, color? with
  | some x, some y, some color =>
    match canvas? with
    | none => .canvasNotFound
    | some canvas =>
      if x < 0 ∨ x ≥ (canvas.width : ℚ) ∨ y < 0 ∨ y ≥ (canvas.height : ℚ) then
        .invalidCoordinates
      else if ¬ isValidColorFormat color then
        .invalidColorFormat
      else
        match canvas.allowedColors with
        | some allowed =>
          if color.toUpper ∈ allowed then .success ⟨x, y, color, userId?⟩
          else .colorNotAllowed
        | none => .success ⟨x, y, color, userId?⟩
  | _, _, _ => .invalidPixelData

/-! ## The client's placePixel routine (pages/canvas/[id].tsx) -/

/-- Outcome of the `fetch('/api/canvas/.../place')` call as seen by the
client: `ok` (response.ok), `httpError` (response received, `!response.ok`),
`networkError` (fetch threw, handled by the `catch`). -/
inductive FetchOutcome where
  | ok
  | httpError
  | networkError
deriving DecidableEq, Repr

/-- A cell of the client's `pixels` map (`PixelData` as stored by
`setPixels` in `placePixel`). -/
structure ClientPixel where
  color : String
  timestamp : Nat
  user : String
deriving DecidableEq, Repr

/-- The client-side state touched by `placePixel`: the cooldown counter,
the displayed pixel map (keyed by coordinates), and `lastPlaceTime`. -/
structure ClientState where
  cooldownRemaining : Nat
  pixels : List ((Int × Int) × ClientPixel)
  lastPlaceTime : Option Nat
deriving DecidableEq, Repr

/-- `Map.set` on the client's pixel map: replace the entry at the key if
present, else append. -/
def mapSet : List ((Int × Int) × ClientPixel) → (Int × Int) → ClientPixel →
    List ((Int × Int) × ClientPixel)
  | [], k, v => [(k, v)]
  | (k', v') :: rest, k, v =>
    if k' = k then (k, v) :: rest else (k', v') :: mapSet rest k v

/-- The observable steps of one `placePixel` invocation, in program order. -/
inductive ClientEvent where
  | setCooldown
  | requestSent
  | responseReceived
  | pixelMapUpdated
deriving DecidableEq, Repr

/-- The logged-in user as seen by `placePixel` (`user?.name`, `user?.$id`). -/
structure ClientUser where
  name : Option String
  id : String
deriving DecidableEq, Repr

/-- `user?.name || user?.$id || "anonymous"`. -/
def userDisplay : Option ClientUser → String
  | none => "anonymous"
  | some u => match u.name with
    | some n => n
    | none => u.id

/-- `placePixel(x, y)` from pages/canvas/[id].tsx.  Guard: return at once
when `!canvasConfig || cooldownRemaining > 0 || !id`.  Otherwise it sets
`cooldownRemaining` to the canvas's `placeCooldown` *before* the fetch;
on a non-ok response or a thrown fetch it returns without touching the
pixel map or resetting the cooldown; only on an ok response it records
`lastPlaceTime` and writes the placed color into the pixel map.  Returns
the new state and the trace of observable steps. -/
def placePixel (canvasConfig : Option CanvasConfig) (id : Option String)
    (st : ClientState) (x y : Int) (selectedColor : String)
    (user : Option ClientUser) (outcome : FetchOutcome) (now : Nat) :
    ClientState × List ClientEvent :=
  match canvasConfig, id with
  | some cfg, some _ =>
    if st.cooldownRemaining > 0 then (st, [])
    else
      let st1 := { st with cooldownRemaining := cfg.placeCooldown }
      match outcome with
      | .networkError => (st1, [.setCooldown, .requestSent])
      | .httpError => (st1, [.setCooldown, .requestSent, .responseReceived])
      | .ok =>
        let st2 := { st1 with
          lastPlaceTime := some now
          pixels := mapSet st1.pixels (x, y)
            ⟨selectedColor, now, userDisplay user⟩ }
        (st2, [.setCooldown, .requestSent, .responseReceived, .pixelMapUpdated])
  | _, _ => (st, [])

/-! ## The client reconnection hook (hooks/useWebSocket.ts) -/

/-- `maxReconnectAttempts` of useWebSocket.ts. -/
def maxReconnectAttempts : Nat := 5

/-- `Math.min(1000 * Math.pow(2, reconnectAttempts.current), 10000)`. -/
def reconnectDelayMs (attempts : Nat) : Nat :=
  min (1000 * 2 ^ attempts) 10000

/-- Hook state: `isConnected`, `reconnectAttempts.current`, and the pending
retry timer (`reconnectTimeoutRef`, carrying its scheduled delay). -/
structure HookState where
  isConnected : Bool
  attempts : Nat
  pendingRetry : Option Nat
deriving DecidableEq, Repr

/-- The `onclose` handler: mark disconnected; if the close code is 1000
(manual close) do nothing more; else if fewer than `maxReconnectAttempts`
attempts were made, schedule a retry timer with the backoff delay;
otherwise no further automatic attempt is scheduled. -/
def onClose (st : HookState) (code : Nat) : HookState :=
  let st' := { st with isConnected := false }
  if code = 1000 then st'
  else if st'.attempts < maxReconnectAttempts then
    { st' with pendingRetry := some (reconnectDelayMs st'.attempts) }
  else st'

/-- The `onopen` handler: connected, retry counter reset to 0. -/
def onOpen (st : HookState) : HookState :=
  { st with isConnected := true, attempts := 0 }

/-- The retry timer firing: increments the attempt counter and calls
`connect()` (the timer is consumed). -/
def retryFire (st : HookState) : HookState :=
  { st with attempts := st.attempts + 1, pendingRetry := none }

/-- The `disconnect` callback: clears any pending retry timer and closes
the socket with code 1000 (so the subsequent `onclose` schedules nothing). -/
def manualDisconnect (st : HookState) : HookState :=
  { st with pendingRetry := none, isConnected := false }

/-! ## The Bun WebSocket server (server.ts)

Sockets are identified by a `Nat` id; the ad hoc fields the source attaches
to each socket object (`canvasId`, `userId`, `isAlive`, `lastPong`) are
kept, together with the transport state (`readyState`, 1 = OPEN) and
whether a `ws.send` on this socket currently succeeds (`sendOk`, the
environment's behaviour of the try/catch around each send). -/

structure Conn where
  canvasId : Option String
  userId : Option String
  isAlive : Bool
  lastPong : Option Nat
  readyState : Nat
  sendOk : Bool
deriving DecidableEq, Repr

/-- The room map `canvasConnections : Map<string, Set<any>>`, as an
association list of (canvasId, insertion-ordered member list). -/
abbrev Rooms := List (String × List Nat)

/-- `Map.get`: the first entry with the key. -/
def getRoom : Rooms → String → Option (List Nat)
  | [], _ => none
  | (k', v) :: rest, k => if k' = k then some v else getRoom rest k

/-- `Map.set`: replace the first entry with the key, else append. -/
def setRoom : Rooms → String → List Nat → Rooms
  | [], k, v => [(k, v)]
  | (k', v') :: rest, k, v =>
    if k' = k then (k, v) :: rest else (k', v') :: setRoom rest k v

/-- `Map.delete`. -/
def delRoom (rs : Rooms) (k : String) : Rooms :=
  rs.filter (fun p => p.1 ≠ k)

/-- The server's shared state: per-socket attributes and the room map. -/
structure ServerState where
  conns : Nat → Conn
  rooms : Rooms

/-- Overwrite one socket's attributes. -/
def updateConn (st : ServerState) (w : Nat) (c : Conn) : ServerState :=
  { st with conns := fun i => if i = w then c else st.conns i }

/-- A member kept by `broadcastToCanvas`'s cleanup: the excluded socket is
skipped entirely; any other member survives iff it is OPEN and its send
succeeded (failing or non-open members are pushed to `deadConnections`
and deleted from the room set). -/
def bcastKeep (st : ServerState) (exclude : Option Nat) (w : Nat) : Bool :=
  exclude = some w || ((st.conns w).readyState = 1 && (st.conns w).sendOk)

/-- A member that actually receives the serialized message: not excluded,
OPEN, and its `ws.send` succeeded. -/
def bcastDeliver (st : ServerState) (exclude : Option Nat) (w : Nat) : Bool :=
  !(exclude = some w : Bool) && (st.conns w).readyState = 1 && (st.conns w).sendOk

/-- `broadcastToCanvas(canvasId, message, excludeWs?)`: no room, no-op.
Otherwise each non-excluded OPEN member gets one `ws.send` of the single
serialized message (a throwing send marks the member dead); non-open
members are marked dead; dead members are then deleted from the room set
— the room entry itself is never deleted here.  Returns the new state and
the list of members the message was delivered to. -/
def broadcastToCanvas (st : ServerState) (canvasId : String)
    (exclude : Option Nat) : ServerState × List Nat :=
  match getRoom st.rooms canvasId with
  | none => (st, [])
  | some s =>
    ({ st with rooms := setRoom st.rooms canvasId (s.filter (bcastKeep st exclude)) },
     s.filter (bcastDeliver st exclude))

/-- Incoming wire messages after JSON parsing, by `data.type`; `malformed`
is a JSON parse failure (caught and logged, no state change). -/
inductive ClientMsg where
  | joinCanvas (canvasId userId : String)
  | ping
  | pong
  | pixelPlaced
  | unknown (t : String)
  | malformed
deriving DecidableEq, Repr

/-- The room-map effect of `join_canvas`: create the room if absent, then
`Set.add` the socket (a no-op when already a member).  Creating the
absent room and then storing the updated member set collapses into one
`setRoom` of the final list — a `setRoom` on a fresh key appends the
entry exactly where creating the empty room would have. -/
def addToRoom (rs : Rooms) (canvasId : String) (w : Nat) : Rooms :=
  let s := (getRoom rs canvasId).getD []
  setRoom rs canvasId (if w ∈ s then s else s ++ [w])

/-- The `join_canvas` case: record canvasId/userId/liveness on the socket,
create the room if absent, add the socket to the room set, send the
welcome message, and broadcast the user count to the room (which performs
its dead-member cleanup). -/
def joinCanvas (st : ServerState) (w : Nat) (canvasId userId : String)
    (now : Nat) : ServerState :=
  let st1 := updateConn st w
    { st.conns w with
        canvasId := (some canvasId)
        userId := (some userId)
        isAlive := true
        lastPong := some now }
  let st3 := { st1 with rooms := addToRoom st1.rooms canvasId w }
  (broadcastToCanvas st3 canvasId none).1

/-- `handleWebSocketMessage`: `join_canvas` joins; `ping` refreshes
liveness and answers `pong`; `pong` refreshes liveness; `pixel_placed`
and unrecognized types do nothing; a parse error is caught and logged. -/
def handleWebSocketMessage (st : ServerState) (w : Nat) (msg : ClientMsg)
    (now : Nat) : ServerState :=
  match msg with
  | .joinCanvas canvasId userId => joinCanvas st w canvasId userId now
  | .ping =>
    updateConn st w { st.conns w with isAlive := true, lastPong := some now }
  | .pong =>
    updateConn st w { st.conns w with isAlive := true, lastPong := some now }
  | .pixelPlaced => st
  | .unknown _ => st
  | .malformed => st

/-- `removeClient(ws)` (the close handler): if the socket recorded a
canvasId whose room exists, delete the socket from that room set; delete
the room entry when it became empty, else broadcast the updated count. -/
def removeClient (st : ServerState) (w : Nat) : ServerState :=
  match (st.conns w).canvasId with
  | none => st
  | some canvasId =>
    match getRoom st.rooms canvasId with
    | none => st
    | some s =>
      let s' := s.filter (fun i => i ≠ w)
      if s'.length = 0 then
        { st with rooms := delRoom st.rooms canvasId }
      else
        (broadcastToCanvas { st with rooms := setRoom st.rooms canvasId s' }
          canvasId none).1

/-- `heartbeatInterval + heartbeatTimeout` = 30000 + 10000 ms. -/
def heartbeatDeadline : Nat := 40000

/-- A connection the heartbeat sweep marks dead: not OPEN, or its last
pong is older than interval+timeout, or the ping send throws. -/
def connDead (c : Conn) (now : Nat) : Bool :=
  c.readyState ≠ 1 ||
  (match c.lastPong with
   | some lp => decide (now - lp > heartbeatDeadline)
   | none => false) ||
  !c.sendOk

/-- The per-socket attribute update of one sweep pass over member list
`s`: dead members are closed (`ws.close()`), survivors are marked
ping-pending (`isAlive := false`, the ping was just sent). -/
def sweepConns (st : ServerState) (now : Nat) (s : List Nat) : Nat → Conn :=
  fun i =>
    if i ∈ s.filter (fun w => connDead (st.conns w) now) then
      { st.conns i with readyState := 3 }
    else if i ∈ s.filter (fun w => !(connDead (st.conns w) now)) then
      { st.conns i with isAlive := false }
    else st.conns i

/-- One room's pass of the heartbeat sweep: classify members, close the
dead ones and delete them from the room set, mark the survivors
ping-pending; delete the room entry if it emptied, else (when members
were removed) broadcast the updated user count. -/
def sweepRoom (st : ServerState) (now : Nat) (canvasId : String) : ServerState :=
  match getRoom st.rooms canvasId with
  | none => st
  | some s =>
    let alive := s.filter (fun w => !(connDead (st.conns w) now))
    let dead := s.filter (fun w => connDead (st.conns w) now)
    let st1 : ServerState :=
      { conns := sweepConns st now s, rooms := setRoom st.rooms canvasId alive }
    if alive.isEmpty then { st1 with rooms := delRoom st1.rooms canvasId }
    else if !dead.isEmpty then (broadcastToCanvas st1 canvasId none).1
    else st1

/-- The heartbeat timer body: sweep every room of the map. -/
def heartbeatSweep (st : ServerState) (now : Nat) : ServerState :=
  (st.rooms.map Prod.fst).foldl (fun s canvasId => sweepRoom s now canvasId) st

/-- "Every room key maps to a non-empty connection set" (spec §3 Room
invariant). -/
def roomsNonEmpty (st : ServerState) : Prop :=
  ∀ p ∈ st.rooms, p.2 ≠ []

instance (st : ServerState) : Decidable (roomsNonEmpty st) := by
  unfold roomsNonEmpty; infer_instance

/-- Transport-level closure of a socket as observed by the server: its
`readyState` leaves OPEN (1).  This models the environment between server
operations — the `close` callback then runs `removeClient`. -/
def closeSocket (st : ServerState) (w : Nat) : ServerState :=
  updateConn st w { st.conns w with readyState := 3 }

/-- "Every room key of the map has a non-empty member list, except keys
still pending in a sweep" — the invariant shape threaded through the
heartbeat sweep's per-room fold. -/
def goodExcept (st : ServerState) (pending : List String) : Prop :=
  ∀ p ∈ st.rooms, p.1 ∈ pending ∨ p.2 ≠ []

/-! ## Concrete fixtures used by counterexamples and witnesses -/

/-- An open, deliverable socket joined to canvas `cid`. -/
def liveConn (cid : String) : Conn :=
  { canvasId := (some cid)
    userId := (some "u")
    isAlive := true
    lastPong := some 0
    readyState := 1
    sendOk := true }

/-- Sockets for the broadcast scenario: 1 has a failing send, 2 is no
longer open, all others are open and deliverable. -/
def exConns5 : Nat → Conn := fun i =>
  if i = 1 then { liveConn "c" with sendOk := false }
  else if i = 2 then { liveConn "c" with readyState := 3 }
  else liveConn "c"

/-- Broadcast scenario: room "c" holds sockets 0..3. -/
def exSt5 : ServerState :=
  { conns := exConns5, rooms := [("c", [0, 1, 2, 3])] }

/-- A room whose only member is no longer open. -/
def exSt6 : ServerState :=
  { conns := fun _ => { liveConn "c" with readyState := 3 }
    rooms := [("c", [0])] }

/-- A not-alive socket with a stale liveness flag, no rooms. -/
def exSt8 : ServerState :=
  { conns := fun _ =>
      { canvasId := none
        userId := none
        isAlive := false
        lastPong := some 0
        readyState := 1
        sendOk := true }
    rooms := [] }

/-- A single live socket 0 joined to room "A". -/
def exSt9 : ServerState :=
  { conns := fun _ => liveConn "A", rooms := [("A", [0])] }

/-- A 10×10 canvas with a 5-second cooldown, open palette, open access. -/
def canvas10 : CanvasConfig :=
  { width := 10, height := 10, placeCooldown := 5, allowedColors := none,
    authMode := .anyone }

/-- A 10×10 canvas restricted to registered users (`auth_mode = user_only`). -/
def canvasUserOnly : CanvasConfig :=
  { canvas10 with authMode := .userOnly }

/-- A 10×10 canvas requiring any identity (`auth_mode = user_or_guest`). -/
def canvasUserOrGuest : CanvasConfig :=
  { canvas10 with authMode := .userOrGuest }

/-! ## Claim C3 — coordinate validation -/

/-- Claim C3 counterexample.  The claim states that non-integer
coordinates such as x = 3.5 are rejected InvalidCoordinates (HTTP 400)
before any store write.  On the code, the `typeof x === 'number'` guard
and the range check both pass for x = 3.5 on a 10×10 canvas, so the
request succeeds with HTTP 200 and the pixel is written to the store. -/
theorem c3_counterexample :
    placeHandler (some canvas10) (some (7 / 2)) (some 4) (some "#FF0000")
        (some "alice")
      = .success ⟨7 / 2, 4, "#FF0000", some "alice"⟩ ∧
    ¬ (∃ n : ℤ, (7 / 2 : ℚ) = (n : ℚ)) ∧
    statusOf (placeHandler (some canvas10) (some (7 / 2)) (some 4)
        (some "#FF0000") (some "alice")) = 200 ∧
    writeOf (placeHandler (some canvas10) (some (7 / 2)) (some 4)
        (some "#FF0000") (some "alice"))
      = some ⟨7 / 2, 4, "#FF0000", some "alice"⟩ := by
  have hmain : placeHandler (some canvas10) (some (7 / 2)) (some 4)
      (some "#FF0000") (some "alice")
      = .success ⟨7 / 2, 4, "#FF0000", some "alice"⟩ := by
    have hc : ¬ ((7 / 2 : ℚ) < 0 ∨ (7 / 2 : ℚ) ≥ (canvas10.width : ℚ) ∨
        (4 : ℚ) < 0 ∨ (4 : ℚ) ≥ (canvas10.height : ℚ)) := by
      push_neg
      norm_num [canvas10]
    have hf : ¬ ¬ isValidColorFormat "#FF0000" = true := by decide
    simp only [placeHandler]
    rw [if_neg hc, if_neg hf]
    rfl
  refine ⟨hmain, ?_, by rw [hmain]; rfl, by rw [hmain]; rfl⟩
  rintro ⟨n, hn⟩
  have h2 : (7 : ℚ) = 2 * (n : ℚ) := by
    field_simp at hn
    linarith
  have h3 : (7 : ℤ) = 2 * n := by exact_mod_cast h2
  omega

/-- Claim C3 (amended): for every placement request on an existing canvas,
the coordinates fail validation (InvalidCoordinates, HTTP 400, before any
store write) iff they are out of range as numbers — `0 ≤ x < width` and
`0 ≤ y < height` over the received values; no integrality test is
performed.  Boundary: for width=10, height=10, x or y in {-1, 10} is
rejected while (0,0) and (9,9) pass the coordinate check. -/
theorem c3_amended_coordinate_validation (canvas : CanvasConfig) (x y : ℚ)
    (color : String) (userId? : Option String) :
    (placeHandler (some canvas) (some x) (some y) (some color) userId?
        = .invalidCoordinates
      ↔ ¬ (0 ≤ x ∧ x < (canvas.width : ℚ) ∧ 0 ≤ y ∧ y < (canvas.height : ℚ))) ∧
    (¬ (0 ≤ x ∧ x < (canvas.width : ℚ) ∧ 0 ≤ y ∧ y < (canvas.height : ℚ)) →
      statusOf (placeHandler (some canvas) (some x) (some y) (some color) userId?)
          = 400 ∧
      writeOf (placeHandler (some canvas) (some x) (some y) (some color) userId?)
          = none) := by
  have hcond : (x < 0 ∨ x ≥ (canvas.width : ℚ) ∨ y < 0 ∨ y ≥ (canvas.height : ℚ))
      ↔ ¬ (0 ≤ x ∧ x < (canvas.width : ℚ) ∧ 0 ≤ y ∧ y < (canvas.height : ℚ)) := by
    simp only [not_and_or, not_le, not_lt, ge_iff_le]
    try tauto
  constructor
  · rw [← hcond]
    simp only [placeHandler]
    by_cases h : x < 0 ∨ x ≥ (canvas.width : ℚ) ∨ y < 0 ∨ y ≥ (canvas.height : ℚ)
    · simp [h]
    · rw [if_neg h]
      simp only [h, iff_false]
      intro hcontra
      split at hcontra
      all_goals first
        | exact HandlerResult.noConfusion hcontra
        | (split at hcontra <;> first
            | exact HandlerResult.noConfusion hcontra
            | (split at hcontra <;> exact HandlerResult.noConfusion hcontra))
  · intro h
    rw [← hcond] at h
    simp only [placeHandler, if_pos h]
    exact ⟨rfl, rfl⟩

/-- Claim C3 witness: boundary behaviour on the 10×10 canvas.  x = -1 and
x = 10 are rejected with no write; (0,0) and (9,9) pass validation and
succeed. -/
theorem c3_witness :
    placeHandler (some canvas10) (some (-1)) (some 0) (some "#FF0000") none
        = .invalidCoordinates ∧
    writeOf (placeHandler (some canvas10) (some 10) (some 9) (some "#FF0000") none)
        = none ∧
    placeHandler (some canvas10) (some 0) (some 0) (some "#FF0000") none
        = .success ⟨0, 0, "#FF0000", none⟩ ∧
    placeHandler (some canvas10) (some 9) (some 9) (some "#FF0000") none
        = .success ⟨9, 9, "#FF0000", none⟩ := by
  refine ⟨?_, ?_, by rfl, by rfl⟩
  · exact ((c3_amended_coordinate_validation canvas10 (-1) 0 "#FF0000" none).1).mpr
      (by intro h; exact absurd h.1 (by norm_num))
  · exact ((c3_amended_coordinate_validation canvas10 10 9 "#FF0000" none).2
      (by intro h; exact absurd h.2.1 (by norm_num [canvas10]))).2

/-! ## Claim C1 — server-side cooldown enforcement -/

/-- Claim C1 counterexample.  The claim states that on a canvas with
`cooldownSeconds > 0` the server rejects a placement made less than
`cooldownSeconds` after a previous accepted one with HTTP 429 and no
store write.  The handler takes no cooldown state at all: on `canvas10`
(cooldown 5 s), a valid request arriving 1000 ms after a previous
accepted placement (1000 < 5*1000, i.e. within the cooldown window) is
accepted with HTTP 200 and the pixel is written — there is no 429 path. -/
theorem c1_counterexample :
    0 < canvas10.placeCooldown ∧
    (1000 : Nat) < canvas10.placeCooldown * 1000 ∧
    placeHandler (some canvas10) (some 3) (some 4) (some "#FF0000")
        (some "alice")
      = .success ⟨3, 4, "#FF0000", some "alice"⟩ ∧
    statusOf (placeHandler (some canvas10) (some 3) (some 4) (some "#FF0000")
        (some "alice")) = 200 ∧
    writeOf (placeHandler (some canvas10) (some 3) (some 4) (some "#FF0000")
        (some "alice")) = some ⟨3, 4, "#FF0000", some "alice"⟩ := by
  refine ⟨by decide, by decide, ?_, ?_, ?_⟩ <;> rfl

/-- Claim C1 (amended): the server performs no cooldown check — the
handler's outcome is independent of the canvas's `placeCooldown` and no
outcome carries HTTP 429.  The cooldown is enforced only client-side:
`placePixel` sends no request while `cooldownRemaining > 0`, and sets
`cooldownRemaining` to the canvas's `placeCooldown` whenever it does
send one. -/
theorem c1_amended_cooldown_client_only :
    (∀ (canvas : CanvasConfig) (cd : Nat) (x? y? : Option ℚ)
        (color? userId? : Option String),
      placeHandler (some { canvas with placeCooldown := cd }) x? y? color? userId?
        = placeHandler (some canvas) x? y? color? userId?) ∧
    (∀ r : HandlerResult, statusOf r ≠ 429) ∧
    (∀ (cfg : CanvasConfig) (idv : String) (st : ClientState) (x y : Int)
        (col : String) (user : Option ClientUser) (out : FetchOutcome) (now : Nat),
      st.cooldownRemaining > 0 →
        placePixel (some cfg) (some idv) st x y col user out now = (st, [])) ∧
    (∀ (cfg : CanvasConfig) (idv : String) (st : ClientState) (x y : Int)
        (col : String) (user : Option ClientUser) (out : FetchOutcome) (now : Nat),
      st.cooldownRemaining = 0 →
        (placePixel (some cfg) (some idv) st x y col user out now).1.cooldownRemaining
          = cfg.placeCooldown) := by
  refine ⟨fun canvas cd x? y? color? userId? => rfl, ?_, ?_, ?_⟩
  · intro r
    cases r <;> simp [statusOf]
  · intro cfg idv st x y col user out now h
    simp [placePixel, h]
  · intro cfg idv st x y col user out now h
    simp only [placePixel, h, gt_iff_lt, lt_irrefl, if_false]
    cases out <;> rfl

/-- Claim C1 witness: on `canvas10`, a client invocation with
`cooldownRemaining = 3` sends nothing, and one with `cooldownRemaining = 0`
whose request is rejected still ends with the full 5-second cooldown; no
handler outcome has status 429. -/
theorem c1_witness :
    placePixel (some canvas10) (some "c") ⟨3, [], none⟩ 1 1 "#FF0000" none
        .ok 7 = (⟨3, [], none⟩, []) ∧
    (placePixel (some canvas10) (some "c") ⟨0, [], none⟩ 1 1 "#FF0000" none
        .httpError 7).1.cooldownRemaining = canvas10.placeCooldown ∧
    statusOf (.success ⟨1, 1, "#FF0000", none⟩) ≠ 429 :=
  ⟨c1_amended_cooldown_client_only.2.2.1 canvas10 "c" ⟨3, [], none⟩ 1 1
      "#FF0000" none .ok 7 (by decide),
   c1_amended_cooldown_client_only.2.2.2 canvas10 "c" ⟨0, [], none⟩ 1 1
      "#FF0000" none .httpError 7 rfl,
   c1_amended_cooldown_client_only.2.1 _⟩

/-! ## Claim C2 — auth-mode gate -/

/-- Claim C2 counterexample.  The claim states that on a `user_only`
canvas a guest (or identity-less) caller is rejected 403, and on a
`user_or_guest` canvas an identity-less caller is rejected 401, with no
write.  The handler never consults `authMode` nor resolves any identity:
both requests succeed with HTTP 200 and a store write. -/
theorem c2_counterexample :
    canvasUserOnly.authMode = .userOnly ∧
    placeHandler (some canvasUserOnly) (some 1) (some 2) (some "#00FF00")
        (some "guest-123")
      = .success ⟨1, 2, "#00FF00", some "guest-123"⟩ ∧
    statusOf (placeHandler (some canvasUserOnly) (some 1) (some 2)
        (some "#00FF00") (some "guest-123")) = 200 ∧
    canvasUserOrGuest.authMode = .userOrGuest ∧
    placeHandler (some canvasUserOrGuest) (some 1) (some 2) (some "#00FF00")
        none
      = .success ⟨1, 2, "#00FF00", none⟩ ∧
    statusOf (placeHandler (some canvasUserOrGuest) (some 1) (some 2)
        (some "#00FF00") none) = 200 := by
  refine ⟨rfl, ?_, ?_, rfl, ?_, ?_⟩ <;> rfl

/-- Claim C2 (amended): the placement handler performs no auth-mode gate:
its outcome is independent of the canvas's `authMode`, its status is
independent of the caller's identity field, and no outcome carries HTTP
401 or 403. -/
theorem c2_amended_no_auth_gate :
    (∀ (canvas : CanvasConfig) (m : AuthMode) (x? y? : Option ℚ)
        (color? userId? : Option String),
      placeHandler (some { canvas with authMode := m }) x? y? color? userId?
        = placeHandler (some canvas) x? y? color? userId?) ∧
    (∀ (canvas : CanvasConfig) (x? y? : Option ℚ) (color? : Option String)
        (userId? userId?' : Option String),
      statusOf (placeHandler (some canvas) x? y? color? userId?)
        = statusOf (placeHandler (some canvas) x? y? color? userId?')) ∧
    (∀ r : HandlerResult, statusOf r ≠ 401 ∧ statusOf r ≠ 403) := by
  refine ⟨fun canvas m x? y? color? userId? => rfl, ?_, ?_⟩
  · intro canvas x? y? color? userId? userId?'
    rcases x? with _ | x <;> rcases y? with _ | y <;> rcases color? with _ | color
      <;> try rfl
    simp only [placeHandler]
    split_ifs <;> try rfl
    cases canvas.allowedColors
    · rfl
    · dsimp only
      split_ifs <;> rfl
  · intro r
    cases r <;> simp [statusOf]

/-! ## Claim C4 — reconnection backoff and attempt limit -/

/-- Claim C4 counterexample.  The claim states delays doubling from a 1 s
base capped at 30 s and a terminal state after 10 failed attempts.  The
hook's `maxReconnectAttempts` is 5, its delay is capped at 10 s (at the
fifth attempt the code waits 10000 ms where the claimed schedule says
16000 ms), and an abnormal closure with 5 prior attempts — fewer than the
claimed 10 — already schedules no retry. -/
theorem c4_counterexample :
    maxReconnectAttempts = 5 ∧
    maxReconnectAttempts ≠ 10 ∧
    reconnectDelayMs 4 = 10000 ∧
    min (1000 * 2 ^ 4) 30000 = 16000 ∧
    reconnectDelayMs 4 ≠ min (1000 * 2 ^ 4) 30000 ∧
    (onClose ⟨false, 5, none⟩ 1006).pendingRetry = none ∧
    onClose ⟨false, 5, none⟩ 1006 = ⟨false, 5, none⟩ := by
  refine ⟨rfl, by decide, by decide, by decide, by decide, ?_, ?_⟩ <;> rfl

/-- Claim C4 (amended): on abnormal closure the client retries with
delays doubling from a 1 s base capped at 10 s; after 5 consecutive
failed attempts it reaches terminal Disconnected and schedules no further
automatic attempt (until `connect` succeeds and `onopen` resets the
counter); a manual disconnect cancels any pending retry timer and closes
with code 1000, which suppresses reconnection. -/
theorem c4_amended_reconnect_5_attempts_10s_cap (st : HookState) (code : Nat) :
    (code ≠ 1000 → st.attempts < maxReconnectAttempts →
      onClose st code
        = { st with
              isConnected := false
              pendingRetry := some (min (1000 * 2 ^ st.attempts) 10000) }) ∧
    (code ≠ 1000 → st.attempts ≥ maxReconnectAttempts →
      onClose st code = { st with isConnected := false }) ∧
    (onClose st 1000 = { st with isConnected := false }) ∧
    ((manualDisconnect st).pendingRetry = none ∧
      (onClose (manualDisconnect st) 1000).pendingRetry = none) ∧
    ((onOpen st).attempts = 0 ∧ (onOpen st).isConnected = true) := by
  refine ⟨?_, ?_, ?_, ⟨rfl, rfl⟩, rfl, rfl⟩
  · intro hcode hlt
    simp [onClose, hcode, hlt, reconnectDelayMs]
  · intro hcode hge
    simp [onClose, hcode, Nat.not_lt.mpr hge]
  · simp [onClose]

/-- Claim C4 witness: a third abnormal closure (2 prior attempts)
schedules a 4 s retry; with 5 prior attempts nothing is scheduled. -/
theorem c4_witness :
    onClose ⟨true, 2, none⟩ 1006
      = { isConnected := false, attempts := 2, pendingRetry := some 4000 } ∧
    onClose ⟨false, 5, some 10000⟩ 1006
      = { isConnected := false, attempts := 5, pendingRetry := some 10000 } :=
  ⟨(c4_amended_reconnect_5_attempts_10s_cap ⟨true, 2, none⟩ 1006).1
      (by decide) (by decide),
   (c4_amended_reconnect_5_attempts_10s_cap ⟨false, 5, some 10000⟩ 1006).2.1
      (by decide) (by decide)⟩

/-! ## Claim C7 — optimistic rendering -/

/-- Claim C7 counterexample.  The claim states the displayed pixel map is
updated with the placed color before the server's confirmation response
is received.  In the code the update happens only after `await fetch`
returns and `response.ok` holds: on an ok response the update event
follows the response event in the trace, and on a non-ok response the
pixel map is never updated at all even though the request was sent. -/
theorem c7_counterexample :
    (placePixel (some canvas10) (some "c") ⟨0, [], none⟩ 1 2 "#FF0000" none
        .ok 50).2
      = [.setCooldown, .requestSent, .responseReceived, .pixelMapUpdated] ∧
    (placePixel (some canvas10) (some "c") ⟨0, [], none⟩ 1 2 "#FF0000" none
        .ok 50).1.pixels
      = [((1, 2), ⟨"#FF0000", 50, "anonymous"⟩)] ∧
    (placePixel (some canvas10) (some "c") ⟨0, [], none⟩ 1 2 "#FF0000" none
        .httpError 50).1.pixels = [] ∧
    (placePixel (some canvas10) (some "c") ⟨0, [], none⟩ 1 2 "#FF0000" none
        .httpError 50).2
      = [.setCooldown, .requestSent, .responseReceived] := by
  refine ⟨?_, ?_, ?_, ?_⟩ <;> rfl

/-- Claim C7 (amended): a local placement is rendered into the displayed
pixel map only after the server's confirmation response has been received
and found ok — on an ok response the update event strictly follows the
response event; on a rejected response or a network error the pixel map
is left unchanged and no update event occurs. -/
theorem c7_amended_render_after_confirmation (cfg : CanvasConfig)
    (idv : String) (st : ClientState) (x y : Int) (col : String)
    (user : Option ClientUser) (out : FetchOutcome) (now : Nat)
    (h : st.cooldownRemaining = 0) :
    (out = .ok →
      (placePixel (some cfg) (some idv) st x y col user out now).2
        = [.setCooldown, .requestSent, .responseReceived, .pixelMapUpdated] ∧
      (placePixel (some cfg) (some idv) st x y col user out now).1.pixels
        = mapSet st.pixels (x, y) ⟨col, now, userDisplay user⟩) ∧
    (out ≠ .ok →
      (placePixel (some cfg) (some idv) st x y col user out now).1.pixels
        = st.pixels ∧
      ClientEvent.pixelMapUpdated ∉
        (placePixel (some cfg) (some idv) st x y col user out now).2) := by
  constructor
  · rintro rfl
    simp [placePixel, h]
  · intro hne
    cases out
    · exact absurd rfl hne
    · simp [placePixel, h]
    · simp [placePixel, h]

/-- Claim C7 witness: concrete ok and rejected invocations on `canvas10`. -/
theorem c7_witness :
    (placePixel (some canvas10) (some "c") ⟨0, [], none⟩ 3 4 "#00FF00" none
        .ok 9).2
      = [.setCooldown, .requestSent, .responseReceived, .pixelMapUpdated] ∧
    (placePixel (some canvas10) (some "c") ⟨0, [], none⟩ 3 4 "#00FF00" none
        .networkError 9).1.pixels = [] :=
  ⟨((c7_amended_render_after_confirmation canvas10 "c" ⟨0, [], none⟩ 3 4
      "#00FF00" none .ok 9 rfl).1 rfl).1,
   ((c7_amended_render_after_confirmation canvas10 "c" ⟨0, [], none⟩ 3 4
      "#00FF00" none .networkError 9 rfl).2 (by decide)).1⟩

/-! ## Claim C10 — local cooldown charged up front, never refunded -/

/-- Claim C10: in every `placePixel` invocation that passes the initial
guard (`cooldownRemaining = 0`, config and id present), the cooldown is
set to the full `placeCooldown` before the HTTP request is sent (the
set-cooldown event precedes the request event) and is never reset when
the request fails or is rejected — for every fetch outcome, including a
non-ok response and a network error, the resulting state keeps
`cooldownRemaining = placeCooldown`. -/
theorem c10_cooldown_charged_before_send (cfg : CanvasConfig) (idv : String)
    (st : ClientState) (x y : Int) (col : String) (user : Option ClientUser)
    (out : FetchOutcome) (now : Nat) (h : st.cooldownRemaining = 0) :
    (placePixel (some cfg) (some idv) st x y col user out now).2.take 2
      = [.setCooldown, .requestSent] ∧
    (placePixel (some cfg) (some idv) st x y col user out now).1.cooldownRemaining
      = cfg.placeCooldown := by
  cases out <;> simp [placePixel, h]

/-- Claim C10 witness: a rejected request on `canvas10` still charges the
full 5-second cooldown after setting it before the send. -/
theorem c10_witness :
    (placePixel (some canvas10) (some "c") ⟨0, [], none⟩ 1 1 "#FF0000" none
        .httpError 7).2.take 2 = [.setCooldown, .requestSent] ∧
    (placePixel (some canvas10) (some "c") ⟨0, [], none⟩ 1 1 "#FF0000" none
        .httpError 7).1.cooldownRemaining = canvas10.placeCooldown :=
  c10_cooldown_charged_before_send canvas10 "c" ⟨0, [], none⟩ 1 1 "#FF0000"
    none .httpError 7 rfl

/-! ## Room-map lemmas -/

theorem getRoom_setRoom_self (rs : Rooms) (k : String) (v : List Nat) :
    getRoom (setRoom rs k v) k = some v := by
  induction rs with
  | nil => simp [setRoom, getRoom]
  | cons p rest ih =>
    obtain ⟨k', v'⟩ := p
    by_cases h : k' = k
    · simp [setRoom, h, getRoom]
    · simp [setRoom, h, getRoom, ih]

theorem getRoom_setRoom_ne (rs : Rooms) (k k' : String) (v : List Nat)
    (h : k' ≠ k) : getRoom (setRoom rs k v) k' = getRoom rs k' := by
  induction rs with
  | nil => simp [setRoom, getRoom, Ne.symm h]
  | cons p rest ih =>
    obtain ⟨k'', v''⟩ := p
    by_cases h2 : k'' = k
    · subst h2
      simp [setRoom, getRoom, Ne.symm h]
    · by_cases h3 : k'' = k'
      · simp [setRoom, h2, getRoom, h3, h]
      · simp [setRoom, h2, getRoom, h3, ih]

theorem getRoom_delRoom_self (rs : Rooms) (k : String) :
    getRoom (delRoom rs k) k = none := by
  induction rs with
  | nil => simp [delRoom, getRoom]
  | cons p rest ih =>
    obtain ⟨k', v'⟩ := p
    by_cases h : k' = k
    · simpa [delRoom, h] using ih
    · simpa [delRoom, getRoom, h] using ih

theorem getRoom_delRoom_ne (rs : Rooms) (k k' : String) (h : k' ≠ k) :
    getRoom (delRoom rs k) k' = getRoom rs k' := by
  induction rs with
  | nil => simp [delRoom, getRoom]
  | cons p rest ih =>
    obtain ⟨k'', v''⟩ := p
    by_cases h2 : k'' = k
    · subst h2
      simpa [delRoom, getRoom, Ne.symm h] using ih
    · by_cases h3 : k'' = k'
      · simp [delRoom, getRoom, h2, h3, h]
      · simpa [delRoom, getRoom, h2, h3] using ih

theorem mem_delRoom (rs : Rooms) (k : String) (p : String × List Nat) :
    p ∈ delRoom rs k ↔ p ∈ rs ∧ p.1 ≠ k := by
  simp [delRoom, List.mem_filter]

theorem mem_setRoom (rs : Rooms) (k : String) (v : List Nat)
    (p : String × List Nat) (hnd : (rs.map Prod.fst).Nodup)
    (hp : p ∈ setRoom rs k v) : p = (k, v) ∨ (p ∈ rs ∧ p.1 ≠ k) := by
  revert hnd hp
  induction rs with
  | nil =>
    intro hnd hp
    simp [setRoom] at hp
    exact Or.inl hp
  | cons q rest ih =>
    obtain ⟨k', v'⟩ := q
    intro hnd hp
    simp only [List.map_cons, List.nodup_cons] at hnd
    by_cases h : k' = k
    · subst h
      rw [setRoom, if_pos rfl] at hp
      rcases List.mem_cons.mp hp with hp1 | hp1
      · exact Or.inl hp1
      · refine Or.inr ⟨List.mem_cons_of_mem _ hp1, ?_⟩
        intro hk
        exact hnd.1 (hk ▸ List.mem_map_of_mem Prod.fst hp1)
    · rw [setRoom, if_neg h] at hp
      rcases List.mem_cons.mp hp with hp1 | hp1
      · exact Or.inr ⟨hp1 ▸ List.mem_cons_self _ _, hp1 ▸ h⟩
      · rcases ih hnd.2 hp1 with h1 | ⟨h1, h2⟩
        · exact Or.inl h1
        · exact Or.inr ⟨List.mem_cons_of_mem _ h1, h2⟩

theorem keys_setRoom_subset (rs : Rooms) (k : String) (v : List Nat)
    (q : String) (h : q ∈ (setRoom rs k v).map Prod.fst) :
    q ∈ rs.map Prod.fst ∨ q = k := by
  revert h
  induction rs with
  | nil =>
    intro h
    simp [setRoom] at h
    exact Or.inr h
  | cons p rest ih =>
    obtain ⟨k', v'⟩ := p
    intro h
    by_cases h2 : k' = k
    · subst h2
      rw [setRoom, if_pos rfl] at h
      simp only [List.map_cons, List.mem_cons] at h
      rcases h with h3 | h3
      · exact Or.inr h3
      · exact Or.inl (by simp [List.mem_cons, h3])
    · rw [setRoom, if_neg h2] at h
      simp only [List.map_cons, List.mem_cons] at h
      rcases h with h3 | h3
      · exact Or.inl (by simp [List.mem_cons, h3])
      · rcases ih h3 with h1 | h1
        · exact Or.inl (by simp [List.mem_cons, h1])
        · exact Or.inr h1

theorem nodupKeys_setRoom (rs : Rooms) (k : String) (v : List Nat)
    (hnd : (rs.map Prod.fst).Nodup) : ((setRoom rs k v).map Prod.fst).Nodup := by
  revert hnd
  induction rs with
  | nil =>
    intro hnd
    simp [setRoom]
  | cons p rest ih =>
    obtain ⟨k', v'⟩ := p
    intro hnd
    simp only [List.map_cons, List.nodup_cons] at hnd
    by_cases h2 : k' = k
    · subst h2
      simpa [setRoom, List.nodup_cons] using hnd
    · simp only [setRoom, if_neg h2, List.map_cons, List.nodup_cons]
      refine ⟨?_, ih hnd.2⟩
      intro hmem
      rcases keys_setRoom_subset rest k v k' hmem with h3 | h3
      · exact hnd.1 h3
      · exact h2 h3

theorem nodupKeys_delRoom (rs : Rooms) (k : String)
    (hnd : (rs.map Prod.fst).Nodup) : ((delRoom rs k).map Prod.fst).Nodup :=
  ((List.filter_sublist rs).map Prod.fst).nodup hnd

/-! ## Server operation lemmas -/

theorem broadcast_conns (st : ServerState) (cid : String) (ex : Option Nat) :
    (broadcastToCanvas st cid ex).1.conns = st.conns := by
  unfold broadcastToCanvas
  cases h : getRoom st.rooms cid <;> rfl

theorem broadcast_getRoom_self (st : ServerState) (cid : String)
    (ex : Option Nat) (s : List Nat) (hs : getRoom st.rooms cid = some s) :
    getRoom (broadcastToCanvas st cid ex).1.rooms cid
      = some (s.filter (bcastKeep st ex)) := by
  unfold broadcastToCanvas
  rw [hs]
  exact getRoom_setRoom_self _ _ _

theorem broadcast_getRoom_ne (st : ServerState) (cid : String)
    (ex : Option Nat) (k : String) (hk : k ≠ cid) :
    getRoom (broadcastToCanvas st cid ex).1.rooms k = getRoom st.rooms k := by
  unfold broadcastToCanvas
  cases h : getRoom st.rooms cid
  · rfl
  · exact getRoom_setRoom_ne _ _ _ _ hk

theorem joinCanvas_conns (st : ServerState) (w : Nat) (cid uid : String)
    (now : Nat) :
    (joinCanvas st w cid uid now).conns
      = fun i => if i = w then
          { st.conns w with
              canvasId := (some cid)
              userId := (some uid)
              isAlive := true
              lastPong := some now }
        else st.conns i := by
  unfold joinCanvas
  rw [broadcast_conns]
  rfl

theorem joinCanvas_getRoom_ne (st : ServerState) (w : Nat) (cid uid : String)
    (now : Nat) (k : String) (hk : k ≠ cid) :
    getRoom (joinCanvas st w cid uid now).rooms k = getRoom st.rooms k := by
  unfold joinCanvas
  rw [broadcast_getRoom_ne _ _ _ _ hk]
  exact getRoom_setRoom_ne _ _ _ _ hk

theorem joinCanvas_self_mem (st : ServerState) (w : Nat) (cid uid : String)
    (now : Nat) (hopen : (st.conns w).readyState = 1)
    (hsend : (st.conns w).sendOk = true) :
    ∃ sb, getRoom (joinCanvas st w cid uid now).rooms cid = some sb ∧
      w ∈ sb := by
  unfold joinCanvas
  set s0 := (getRoom (updateConn st w
    { st.conns w with
        canvasId := (some cid)
        userId := (some uid)
        isAlive := true
        lastPong := some now }).rooms cid).getD [] with hs0
  refine ⟨_, broadcast_getRoom_self _ _ _ _ (getRoom_setRoom_self _ _ _), ?_⟩
  refine List.mem_filter.mpr ⟨?_, ?_⟩
  · by_cases hw : w ∈ s0
    · simp [hw]
    · simp [hw]
  · simp [bcastKeep, updateConn, hopen, hsend]

theorem removeClient_getRoom_ne (st : ServerState) (w : Nat) (cid : String)
    (hcid : (st.conns w).canvasId = some cid) (k : String) (hk : k ≠ cid) :
    getRoom (removeClient st w).rooms k = getRoom st.rooms k := by
  unfold removeClient
  rw [hcid]
  dsimp only
  cases hs : getRoom st.rooms cid
  · rfl
  · dsimp only
    split
    · exact getRoom_delRoom_ne _ _ _ hk
    · rw [broadcast_getRoom_ne _ _ _ _ hk]
      exact getRoom_setRoom_ne _ _ _ _ hk

theorem removeClient_not_mem (st : ServerState) (w : Nat) (cid : String)
    (hcid : (st.conns w).canvasId = some cid) :
    ∀ sb, getRoom (removeClient st w).rooms cid = some sb → w ∉ sb := by
  intro sb hsb hw
  unfold removeClient at hsb
  rw [hcid] at hsb
  dsimp only at hsb
  cases hs : getRoom st.rooms cid
  · rw [hs] at hsb
    dsimp only at hsb
    rw [hs] at hsb
    exact Option.noConfusion hsb
  · rw [hs] at hsb
    dsimp only at hsb
    split at hsb
    · rw [getRoom_delRoom_self] at hsb
      exact Option.noConfusion hsb
    · rw [broadcast_getRoom_self _ _ _ _ (getRoom_setRoom_self _ _ _)] at hsb
      obtain rfl : _ = sb := Option.some.inj hsb
      have h1 := (List.mem_filter.mp hw).1
      have h2 := (List.mem_filter.mp h1).2
      simp at h2

theorem closeSocket_rooms (st : ServerState) (w : Nat) :
    (closeSocket st w).rooms = st.rooms := rfl

theorem closeSocket_readyState (st : ServerState) (w : Nat) :
    ((closeSocket st w).conns w).readyState = 3 := by
  simp [closeSocket, updateConn]

theorem sweepRoom_not_mem (st : ServerState) (now : Nat) (cid : String)
    (w : Nat) (hdead : connDead (st.conns w) now = true) :
    ∀ s'', getRoom (sweepRoom st now cid).rooms cid = some s'' → w ∉ s'' := by
  intro s'' hs'' hw
  unfold sweepRoom at hs''
  cases hs : getRoom st.rooms cid
  · rw [hs] at hs''
    dsimp only at hs''
    rw [hs] at hs''
    exact Option.noConfusion hs''
  · rw [hs] at hs''
    dsimp only at hs''
    split at hs''
    · rw [getRoom_delRoom_self] at hs''
      exact Option.noConfusion hs''
    · split at hs''
      · rw [broadcast_getRoom_self _ _ _ _ (getRoom_setRoom_self _ _ _)] at hs''
        obtain rfl : _ = s'' := Option.some.inj hs''
        have h1 := (List.mem_filter.mp hw).1
        have h2 := (List.mem_filter.mp h1).2
        rw [hdead] at h2
        exact Bool.noConfusion h2
      · rw [getRoom_setRoom_self] at hs''
        obtain rfl : _ = s'' := Option.some.inj hs''
        have h2 := (List.mem_filter.mp hw).2
        rw [hdead] at h2
        exact Bool.noConfusion h2

/-! ## Claim C8 — liveness reset on message receipt -/

/-- Claim C8 counterexample.  The claim states that handling any message,
including unrecognized types, resets the connection's `isAlive` flag and
last-seen timestamp.  A message of unrecognized type (e.g. "cursor_move")
and a `pixel_placed` message fall into the no-op branches: the
connection's `isAlive` stays false and `lastPong` keeps its old value. -/
theorem c8_counterexample :
    (handleWebSocketMessage exSt8 0 (.unknown "cursor_move") 99).conns 0
      = exSt8.conns 0 ∧
    ((handleWebSocketMessage exSt8 0 (.unknown "cursor_move") 99).conns 0).isAlive
      = false ∧
    ((handleWebSocketMessage exSt8 0 (.unknown "cursor_move") 99).conns 0).lastPong
      ≠ some 99 ∧
    (handleWebSocketMessage exSt8 0 .pixelPlaced 99).conns 0 = exSt8.conns 0 ∧
    ((handleWebSocketMessage exSt8 0 .pixelPlaced 99).conns 0).isAlive = false := by
  exact ⟨rfl, rfl, by decide, rfl, rfl⟩

/-- Claim C8 (amended): only `join_canvas`, `ping` and `pong` messages
reset the connection's liveness pending flag and last-seen timestamp;
`pixel_placed` and unrecognized message types (and malformed JSON) leave
the server state — liveness fields included — entirely unchanged. -/
theorem c8_amended_liveness_reset (st : ServerState) (w : Nat) (now : Nat)
    (cid uid t : String) :
    (((handleWebSocketMessage st w .ping now).conns w).isAlive = true ∧
      ((handleWebSocketMessage st w .ping now).conns w).lastPong = some now) ∧
    (((handleWebSocketMessage st w .pong now).conns w).isAlive = true ∧
      ((handleWebSocketMessage st w .pong now).conns w).lastPong = some now) ∧
    (((handleWebSocketMessage st w (.joinCanvas cid uid) now).conns w).isAlive
        = true ∧
      ((handleWebSocketMessage st w (.joinCanvas cid uid) now).conns w).lastPong
        = some now) ∧
    handleWebSocketMessage st w .pixelPlaced now = st ∧
    handleWebSocketMessage st w (.unknown t) now = st ∧
    handleWebSocketMessage st w .malformed now = st := by
  refine ⟨⟨?_, ?_⟩, ⟨?_, ?_⟩, ⟨?_, ?_⟩, rfl, rfl, rfl⟩
  · simp [handleWebSocketMessage, updateConn]
  · simp [handleWebSocketMessage, updateConn]
  · simp [handleWebSocketMessage, updateConn]
  · simp [handleWebSocketMessage, updateConn]
  · show ((joinCanvas st w cid uid now).conns w).isAlive = true
    rw [joinCanvas_conns]
    simp
  · show ((joinCanvas st w cid uid now).conns w).lastPong = some now
    rw [joinCanvas_conns]
    simp

theorem bcastKeep_eq_false_iff (st : ServerState) (ex : Option Nat) (w : Nat) :
    bcastKeep st ex w = false ↔
      ex ≠ some w ∧
      ¬ ((st.conns w).readyState = 1 ∧ (st.conns w).sendOk = true) := by
  simp [bcastKeep]
  try tauto

theorem bcastDeliver_eq_true_iff (st : ServerState) (ex : Option Nat) (w : Nat) :
    bcastDeliver st ex w = true ↔
      ex ≠ some w ∧ (st.conns w).readyState = 1 ∧ (st.conns w).sendOk = true := by
  simp [bcastDeliver]
  try tauto

/-! ## Claim C5 — broadcast failure isolation -/

/-- Claim C5: for every broadcast into an existing room, (a) the delivered
set and the surviving room are pointwise filters of the member list — a
member's delivery and survival depend only on its own exclusion, openness
and send success, so one member's failure never affects another; the
broadcast is a total function and the triggering placement handler has no
broadcast-failure outcome; (b) every open, send-ok, non-excluded member
receives the serialized message exactly once (room list without
duplicates) and stays in the room; (c) exactly the non-excluded members
that are non-open or whose send failed are removed, and they receive
nothing; (d) other rooms are untouched. -/
theorem c5_broadcast_failure_isolation (st : ServerState) (cid : String)
    (ex : Option Nat) (s : List Nat) (hs : getRoom st.rooms cid = some s)
    (hnd : s.Nodup) :
    (broadcastToCanvas st cid ex).2 = s.filter (bcastDeliver st ex) ∧
    getRoom (broadcastToCanvas st cid ex).1.rooms cid
      = some (s.filter (bcastKeep st ex)) ∧
    (∀ w ∈ s, ex ≠ some w → (st.conns w).readyState = 1 →
        (st.conns w).sendOk = true →
      (broadcastToCanvas st cid ex).2.count w = 1 ∧
        w ∈ s.filter (bcastKeep st ex)) ∧
    (∀ w ∈ s, w ∉ s.filter (bcastKeep st ex) →
      ex ≠ some w ∧
      ¬ ((st.conns w).readyState = 1 ∧ (st.conns w).sendOk = true) ∧
      w ∉ (broadcastToCanvas st cid ex).2) ∧
    (∀ k, k ≠ cid →
      getRoom (broadcastToCanvas st cid ex).1.rooms k = getRoom st.rooms k) := by
  have hsnd : (broadcastToCanvas st cid ex).2 = s.filter (bcastDeliver st ex) := by
    unfold broadcastToCanvas
    rw [hs]
  refine ⟨hsnd, broadcast_getRoom_self st cid ex s hs, ?_, ?_, ?_⟩
  · intro w hw hex hopen hsend
    have hdel : bcastDeliver st ex w = true :=
      (bcastDeliver_eq_true_iff st ex w).mpr ⟨hex, hopen, hsend⟩
    constructor
    · rw [hsnd, List.count_filter hdel]
      exact List.count_eq_one_of_mem hnd hw
    · exact List.mem_filter.mpr ⟨hw, by simp [bcastKeep, hopen, hsend]⟩
  · intro w hw hnk
    have hkeepf : bcastKeep st ex w = false := by
      cases hkeep : bcastKeep st ex w
      · rfl
      · exact absurd (List.mem_filter.mpr ⟨hw, hkeep⟩) hnk
    obtain ⟨h1, h2⟩ := (bcastKeep_eq_false_iff st ex w).mp hkeepf
    refine ⟨h1, h2, ?_⟩
    rw [hsnd]
    intro hmem
    exact h2 ((bcastDeliver_eq_true_iff st ex w).mp (List.mem_filter.mp hmem).2).2
  · intro k hk
    exact broadcast_getRoom_ne st cid ex k hk

/-- Claim C5 witness: in a room [0,1,2,3] where 1's send fails, 2 is not
open and 3 is excluded, socket 0 receives the message exactly once, the
room keeps exactly the healthy and excluded members, and 1 receives
nothing. -/
theorem c5_witness :
    (broadcastToCanvas exSt5 "c" (some 3)).2 = [0] ∧
    (broadcastToCanvas exSt5 "c" (some 3)).2.count 0 = 1 ∧
    getRoom (broadcastToCanvas exSt5 "c" (some 3)).1.rooms "c" = some [0, 3] ∧
    1 ∉ (broadcastToCanvas exSt5 "c" (some 3)).2 := by
  have h := c5_broadcast_failure_isolation exSt5 "c" (some 3) [0, 1, 2, 3]
    (by decide) (by decide)
  refine ⟨by decide, ?_, ?_, ?_⟩
  · exact (h.2.2.1 0 (by decide) (by decide) (by decide) (by decide)).1
  · exact (h.2.1).trans (by decide)
  · exact (h.2.2.2.1 1 (by decide) (by decide)).2.2

/-! ## Claim C9 — stale dual-room membership -/

/-- Claim C9: a connection already in room A that sends `join_canvas` for
B ≠ A is added to B without being removed from A — it is simultaneously a
member (and counted) in both rooms and its recorded canvasId becomes B;
a subsequent close (`removeClient`) removes it only from B, leaving the
stale membership in A; the heartbeat sweep's pass over room A then prunes
the closed socket. -/
theorem c9_stale_dual_room_membership (st : ServerState) (w : Nat)
    (A B uid : String) (now now' : Nat) (sa : List Nat)
    (hA : getRoom st.rooms A = some sa) (hw : w ∈ sa) (hAB : A ≠ B)
    (hopen : (st.conns w).readyState = 1) (hsend : (st.conns w).sendOk = true) :
    (getRoom (handleWebSocketMessage st w (.joinCanvas B uid) now).rooms A
        = some sa ∧ w ∈ sa) ∧
    (∃ sb, getRoom (handleWebSocketMessage st w (.joinCanvas B uid) now).rooms B
        = some sb ∧ w ∈ sb) ∧
    ((handleWebSocketMessage st w (.joinCanvas B uid) now).conns w).canvasId
        = some B ∧
    getRoom (removeClient
        (handleWebSocketMessage st w (.joinCanvas B uid) now) w).rooms A
      = some sa ∧
    (∀ sb', getRoom (removeClient
          (handleWebSocketMessage st w (.joinCanvas B uid) now) w).rooms B
        = some sb' → w ∉ sb') ∧
    (∀ sa'', getRoom (sweepRoom (closeSocket (removeClient
            (handleWebSocketMessage st w (.joinCanvas B uid) now) w) w)
          now' A).rooms A = some sa'' → w ∉ sa'') := by
  rw [show handleWebSocketMessage st w (.joinCanvas B uid) now
      = joinCanvas st w B uid now from rfl]
  have hcid : ((joinCanvas st w B uid now).conns w).canvasId = some B := by
    rw [joinCanvas_conns]
    simp
  refine ⟨⟨?_, hw⟩, ?_, hcid, ?_, ?_, ?_⟩
  · rw [joinCanvas_getRoom_ne _ _ _ _ _ _ hAB]
    exact hA
  · exact joinCanvas_self_mem st w B uid now hopen hsend
  · rw [removeClient_getRoom_ne _ _ _ hcid _ hAB,
      joinCanvas_getRoom_ne _ _ _ _ _ _ hAB]
    exact hA
  · exact removeClient_not_mem _ _ _ hcid
  · apply sweepRoom_not_mem
    have h3 := closeSocket_readyState
      (removeClient (joinCanvas st w B uid now) w) w
    simp [connDead, h3]

/-- Claim C9 witness: socket 0 joined to room "A" joins "B", is then in
both rooms with canvasId "B"; after `removeClient` it is still recorded
in "A". -/
theorem c9_witness :
    getRoom (handleWebSocketMessage exSt9 0 (.joinCanvas "B" "u") 5).rooms "A"
      = some [0] ∧
    ((handleWebSocketMessage exSt9 0 (.joinCanvas "B" "u") 5).conns 0).canvasId
      = some "B" ∧
    getRoom (removeClient
        (handleWebSocketMessage exSt9 0 (.joinCanvas "B" "u") 5) 0).rooms "A"
      = some [0] := by
  have h := c9_stale_dual_room_membership exSt9 0 "A" "B" "u" 5 6 [0]
    (by decide) (by decide) (by decide) (by decide) (by decide)
  exact ⟨h.1.1, h.2.2.1, h.2.2.2.1⟩

/-! ## Claim C6 — the no-empty-room invariant -/

theorem getRoom_ne_none_of_mem (rs : Rooms) (p : String × List Nat)
    (hp : p ∈ rs) : getRoom rs p.1 ≠ none := by
  revert hp
  induction rs with
  | nil =>
    intro hp
    cases hp
  | cons q rest ih =>
    obtain ⟨k', v'⟩ := q
    intro hp
    by_cases h : k' = p.1
    · simp [getRoom, h]
    · rcases List.mem_cons.mp hp with h1 | h1
      · rw [h1] at h
        exact absurd rfl h
      · simpa [getRoom, h] using ih h1

theorem broadcast_rooms_eq (st : ServerState) (cid : String) (ex : Option Nat)
    (s : List Nat) (hs : getRoom st.rooms cid = some s) :
    (broadcastToCanvas st cid ex).1.rooms
      = setRoom st.rooms cid (s.filter (bcastKeep st ex)) := by
  unfold broadcastToCanvas
  rw [hs]

theorem connDead_false_fields (c : Conn) (now : Nat)
    (h : connDead c now = false) : c.readyState = 1 ∧ c.sendOk = true := by
  simp only [connDead, Bool.or_eq_false_iff, Bool.not_eq_false',
    decide_eq_false_iff_not, not_not] at h
  exact ⟨h.1.1, h.2⟩

theorem sweepConns_keep (st : ServerState) (now : Nat) (s : List Nat)
    (rs : Rooms) (w : Nat) (hw : w ∈ s)
    (hlive : connDead (st.conns w) now = false) :
    bcastKeep { conns := sweepConns st now s, rooms := rs } none w = true := by
  obtain ⟨hready, hsend⟩ := connDead_false_fields _ _ hlive
  have hnotdead : w ∉ s.filter (fun i => connDead (st.conns i) now) := by
    intro hmem
    have hmem2 := (List.mem_filter.mp hmem).2
    rw [hlive] at hmem2
    exact Bool.noConfusion hmem2
  have halive : w ∈ s.filter (fun i => !(connDead (st.conns i) now)) :=
    List.mem_filter.mpr ⟨hw, by rw [hlive]; rfl⟩
  simp [bcastKeep, sweepConns, hnotdead, halive, hready, hsend]

theorem sweepRoom_goodExcept (st : ServerState) (now : Nat) (cid : String)
    (pend : List String) (hnd : (st.rooms.map Prod.fst).Nodup)
    (hg : goodExcept st (cid :: pend)) :
    goodExcept (sweepRoom st now cid) pend ∧
    ((sweepRoom st now cid).rooms.map Prod.fst).Nodup := by
  unfold sweepRoom
  cases hs : getRoom st.rooms cid
  · refine ⟨?_, hnd⟩
    intro p hp
    rcases hg p hp with h1 | h1
    · rcases List.mem_cons.mp h1 with h2 | h2
      · exact absurd (h2 ▸ hs) (getRoom_ne_none_of_mem st.rooms p hp)
      · exact Or.inl h2
    · exact Or.inr h1
  · dsimp only
    split
    · -- room emptied by the sweep: entry deleted
      constructor
      · intro p hp
        obtain ⟨hp1, hp2⟩ := (mem_delRoom _ _ _).mp hp
        rcases mem_setRoom _ _ _ _ hnd hp1 with h1 | ⟨h1, h2⟩
        · exact absurd (congrArg Prod.fst h1) hp2
        · rcases hg p h1 with h3 | h3
          · rcases List.mem_cons.mp h3 with h4 | h4
            · exact absurd h4 h2
            · exact Or.inl h4
          · exact Or.inr h3
      · exact nodupKeys_delRoom _ _ (nodupKeys_setRoom _ _ _ hnd)
    · split
      · -- survivors remain and a user-count broadcast runs; it keeps all
        -- survivors, so the room entry stays non-empty
        rename_i s halive hdead
        rw [broadcast_rooms_eq _ _ _ _ (getRoom_setRoom_self _ _ _)]
        have hfix : (s.filter (fun w => !(connDead (st.conns w) now))).filter
            (bcastKeep
              { conns := sweepConns st now s
                rooms := setRoom st.rooms cid
                  (s.filter (fun w => !(connDead (st.conns w) now))) } none)
            = s.filter (fun w => !(connDead (st.conns w) now)) := by
          apply List.filter_eq_self.mpr
          intro w hw
          have hw1 := List.mem_filter.mp hw
          have h2 : connDead (st.conns w) now = false := by
            simpa using hw1.2
          exact sweepConns_keep st now s _ w hw1.1 h2
        constructor
        · intro p hp
          rw [broadcast_rooms_eq _ _ _ _ (getRoom_setRoom_self _ _ _), hfix] at hp
          rcases mem_setRoom _ _ _ _ (nodupKeys_setRoom _ _ _ hnd) hp with
            h1 | ⟨h1, h2⟩
          · refine Or.inr ?_
            rw [h1]
            intro hcontra
            dsimp only at hcontra
            rw [hcontra] at halive
            exact halive rfl
          · rcases mem_setRoom _ _ _ _ hnd h1 with h3 | ⟨h3, h4⟩
            · exact absurd (congrArg Prod.fst h3) h2
            · rcases hg p h3 with h5 | h5
              · rcases List.mem_cons.mp h5 with h6 | h6
                · exact absurd h6 h4
                · exact Or.inl h6
              · exact Or.inr h5
        · dsimp only
          rw [hfix]
          exact nodupKeys_setRoom _ _ _ (nodupKeys_setRoom _ _ _ hnd)
      · -- no member died; room stays as the non-empty survivor list
        rename_i s halive hdead
        constructor
        · intro p hp
          rcases mem_setRoom _ _ _ _ hnd hp with h1 | ⟨h1, h2⟩
          · refine Or.inr ?_
            rw [h1]
            intro hcontra
            dsimp only at hcontra
            rw [hcontra] at halive
            exact halive rfl
          · rcases hg p h1 with h3 | h3
            · rcases List.mem_cons.mp h3 with h4 | h4
              · exact absurd h4 h2
              · exact Or.inl h4
            · exact Or.inr h3
        · exact nodupKeys_setRoom _ _ _ hnd

theorem sweep_fold (now : Nat) (ks : List String) :
    ∀ st : ServerState, (st.rooms.map Prod.fst).Nodup → goodExcept st ks →
      goodExcept (ks.foldl (fun s cid => sweepRoom s now cid) st) [] := by
  induction ks with
  | nil =>
    intro st hnd hg
    exact hg
  | cons k rest ih =>
    intro st hnd hg
    have h := sweepRoom_goodExcept st now k rest hnd hg
    exact ih _ h.2 h.1

/-- Claim C6 counterexample.  The claim states the no-empty-room invariant
is preserved by every operation including broadcast with dead-peer
removal.  Broadcasting into a room whose only member is no longer open
deletes that member from the set but never deletes the room entry: the
empty room `("c", [])` persists in the map. -/
theorem c6_counterexample :
    (broadcastToCanvas exSt6 "c" none).1.rooms = [("c", [])] ∧
    ¬ roomsNonEmpty (broadcastToCanvas exSt6 "c" none).1 := by
  refine ⟨by decide, ?_⟩
  intro hcontra
  exact hcontra ("c", []) (by decide) rfl

/-- Claim C6 (amended): the broadcast's dead-peer removal does not delete
a room it empties, so an empty room entry can persist until the next
heartbeat sweep; the heartbeat sweep restores the invariant: after a full
sweep (over a map with unique keys, as a JS `Map` guarantees), every
remaining room key maps to a non-empty connection set — `removeClient`
itself deletes the room only when the leaving socket was its last member. -/
theorem c6_amended_sweep_restores_invariant (st : ServerState) (now : Nat)
    (hnd : (st.rooms.map Prod.fst).Nodup) :
    roomsNonEmpty (heartbeatSweep st now) := by
  have hg : goodExcept st (st.rooms.map Prod.fst) :=
    fun p hp => Or.inl (List.mem_map_of_mem Prod.fst hp)
  have h := sweep_fold now (st.rooms.map Prod.fst) st hnd hg
  intro p hp
  rcases h p hp with h1 | h1
  · cases h1
  · exact h1

/-- Claim C6 witness: sweeping the state whose only room was emptied by a
broadcast removes the leaked room entry. -/
theorem c6_witness :
    roomsNonEmpty (heartbeatSweep (broadcastToCanvas exSt6 "c" none).1 100) :=
  c6_amended_sweep_restores_invariant (broadcastToCanvas exSt6 "c" none).1 100
    (by decide)

end OpenPlace
